import Mathlib
/- Verification development for the ai_marlet_trend_analysis repository:
   a shallow embedding of src/app.py (table loader, aggregator, forecast
   adapter around the external Prophet library) and src/generate_data.py
   (synthetic transaction generator), with theorems settling the stated
   properties of these components. -/

namespace Market

/-! ## Table model for the forecast adapter

A pandas DataFrame restricted to what run_prophet_forecast inspects: the
list of column names and the list of rows, each row assigning a rational
value to each column name.  Calendar dates are represented at day
granularity as rational day numbers, the form the loader hands over. -/
structure DF where
  columns : List String
  rows : List (String → Rat)

/-! ## The external Prophet model boundary

Only the parts of the external library that determine the shape of the
prediction table are represented: fitting records the training rows and
the sorted list of distinct training timestamps (the history_dates field
of a fitted Prophet model), make_future_dataframe builds the prediction
timestamps, and predict emits one output row per future timestamp.  The
numeric estimates are produced wholly inside the external library and are
opaque to this repository (spec sections 3 and 4.3: the system does not
interpret or modify these values), so they are modelled by a fixed value. -/

/-- The distinct values of a list, sorted ascending: the history_dates of a
fitted Prophet model, computed from the ds column of the training frame. -/
def sortedDates (l : List Rat) : List Rat :=
  l.dedup.insertionSort (fun a b => a ≤ b)

structure ProphetModel where
  history : List (Rat × Rat)
  historyDates : List Rat
deriving DecidableEq

/-- Prophet fit on a two-column (ds, y) frame: records the training rows and
the sorted distinct ds values. -/
def prophetFit (df : List (Rat × Rat)) : ProphetModel :=
  { history := df, historyDates := sortedDates (df.map Prod.fst) }

/-- Prophet make_future_dataframe(periods): the distinct history dates
followed by periods consecutive days starting the day after the last
history date.  history_dates is sorted ascending, so its last element is
its maximum. -/
def make_future_dataframe (m : ProphetModel) (periods : Nat) : List Rat :=
  m.historyDates ++
    (List.range periods).map (fun i : Nat => m.historyDates.getLast?.getD 0 + 1 + (i : Rat))

structure ForecastRow where
  ds : Rat
  yhat : Rat
  yhat_lower : Rat
  yhat_upper : Rat
deriving DecidableEq

/-- Prophet predict: one output row per future timestamp, carrying that
timestamp in its ds field; the numeric estimates are opaque external
outputs, modelled by a fixed value. -/
def prophetPredict (_m : ProphetModel) (future : List Rat) : List ForecastRow :=
  future.map (fun d => { ds := d, yhat := 0, yhat_lower := 0, yhat_upper := 0 })

/-- src/app.py lines 56-65, run_prophet_forecast.  The guard mirrors the
source condition df.empty or date_col not in df.columns or value_col not in
df.columns or len(df) lt 2, returning the sentinel pair (None, None); the
non-guard path projects the two columns to (ds, y) pairs, fits the external
model, builds the future frame and predicts. -/
def run_prophet_forecast (df : DF) (date_col value_col : String) (periods : Nat) :
    Option ProphetModel × Option (List ForecastRow) :=
  if df.rows.isEmpty ∨ date_col ∉ df.columns ∨ value_col ∉ df.columns ∨ df.rows.length < 2 then
    (none, none)
  else
    let prophet_df := df.rows.map (fun r => (r date_col, r value_col))
    let model := prophetFit prophet_df
    let future := make_future_dataframe model periods
    let forecast := prophetPredict model future
    (some model, some forecast)

/-- The calendar days d0, d0 + 1, ..., d0 + (n - 1): the formalisation of
"one row per calendar day" used to state the coverage property. -/
def dailySpan (d0 : Rat) (n : Nat) : List Rat :=
  (List.range n).map (fun i : Nat => d0 + (i : Rat))

/-- A two-row table whose rows are the same (timestamp, value) pair: one
distinct observation, but two raw rows. -/
def dupRow : String → Rat := fun c => if c = "Launch_Date" then 5 else 7

def dupDF : DF := { columns := ["Launch_Date", "Price"], rows := [dupRow, dupRow] }

/-! ## Aggregator: yearly rollups and distinct counts

The rollups in src/app.py lines 105-106 and 112-113 index the frame by
Launch_Date and resample at yearly frequency.  pandas resample at a yearly
frequency produces one bin for every calendar year from the year of the
earliest date to the year of the latest date inclusive, whether or not a
year has observations; count on an empty bin yields 0, mean yields the
missing value NaN (modelled here as none).  Only the calendar year of a
date participates in binning, so a date is modelled by its calendar
components. -/
structure Date where
  year : Int
  month : Nat
  day : Nat
deriving DecidableEq

/-- The integers lo, lo + 1, ..., hi (empty when hi is below lo). -/
def intRange (lo hi : Int) : List Int :=
  (List.range (hi - lo + 1).toNat).map (fun i : Nat => lo + (i : Int))

def yearsOf {α : Type} (rows : List (Date × α)) : List Int :=
  rows.map (fun r => r.1.year)

/-- Year of the earliest date in the table (0 on an empty table; the rollups
are only invoked on nonempty tables). -/
def minYear {α : Type} (rows : List (Date × α)) : Int :=
  match yearsOf rows with
  | [] => 0
  | y :: ys => ys.foldl min y

/-- Year of the latest date in the table. -/
def maxYear {α : Type} (rows : List (Date × α)) : Int :=
  match yearsOf rows with
  | [] => 0
  | y :: ys => ys.foldl max y

/-- The calendar-year bins produced by resample at yearly frequency: one bin
per year from the earliest to the latest observed year inclusive. -/
def yearBins {α : Type} (rows : List (Date × α)) : List Int :=
  if rows.isEmpty then [] else intRange (minYear rows) (maxYear rows)

/-- src/app.py lines 105-106, launches_by_year: resample the Launch_Date
index at yearly frequency and count the Product_ID column, giving per year
the number of source rows whose date falls in that calendar year. -/
def launches_by_year {α : Type} (rows : List (Date × α)) : List (Int × Nat) :=
  (yearBins rows).map (fun z => (z, rows.countP (fun r => r.1.year == z)))

/-- src/app.py lines 112-113, price_by_year: resample the Launch_Date index
at yearly frequency and take the mean of Price; a bin with no observations
gets the missing value NaN, modelled as none. -/
def price_by_year (rows : List (Date × Rat)) : List (Int × Option Rat) :=
  (yearBins rows).map (fun z =>
    (z,
      let v := rows.filterMap (fun r => if r.1.year == z then some r.2 else none)
      if v.isEmpty then none else some (v.sum / v.length)))

/-- pandas Series.nunique (src/app.py line 99): the number of distinct
values of a column. -/
def nunique (l : List String) : Nat := l.dedup.length

def d2020 : Date := { year := 2020, month := 1, day := 1 }

def d2022 : Date := { year := 2022, month := 6, day := 15 }

/-- The two-row table with observations in 2020 and 2022 only. -/
def gapYearsTable : List (Date × Rat) := [(d2020, 10), (d2022, 20)]

/-! ## Synthetic transaction generator (src/generate_data.py)

The generation loop is randomized; each iteration makes two random.choice
calls and two random.randint calls.  Randomness is embedded by passing an
explicit stream of raw draws, one Draw record per iteration; randint
reduces a raw draw into the inclusive range, and random.choice picks the
element at the reduced index, raising IndexError (modelled as none) on an
empty list.  The to_csv write on line 51 runs only after the loop has
completed all iterations, so a raising iteration aborts the run with no
output file, modelled by the run returning none. -/
structure Product where
  Product_ID : String
  Price : Rat
deriving DecidableEq

structure Transaction where
  TransactionID : String
  CustomerID : String
  ProductID : String
  TransactionDate : Nat
  Quantity : Nat
  PricePerItem : Rat
  TotalPrice : Rat
deriving DecidableEq

/-- The raw random draws consumed by one iteration of the loop. -/
structure Draw where
  custPick : Nat
  prodPick : Nat
  dayPick : Nat
  qtyPick : Nat
deriving DecidableEq

def NUM_CUSTOMERS : Nat := 150

def NUM_TRANSACTIONS : Nat := 1000

/-- src/generate_data.py line 22: the customer identifier pool C-1 .. C-150. -/
def customer_ids : List String :=
  (List.range NUM_CUSTOMERS).map (fun i => "C-" ++ toString (i + 1))

/-- random.choice over a list: some element of a nonempty list (the raw draw
reduced modulo the length), none (IndexError) on an empty list. -/
def randomChoice {α : Type} (l : List α) (pick : Nat) : Option α :=
  l.get? (pick % l.length)

/-- random.randint a b: a uniform draw from the inclusive range a..b,
modelled by reducing the raw draw into the range. -/
def randint (a b pick : Nat) : Nat := a + pick % (b - a + 1)

/-- src/generate_data.py line 23: the identifier column of the product table
as a list. -/
def product_ids (products_df : List Product) : List String :=
  products_df.map (fun p => p.Product_ID)

/-- src/generate_data.py lines 26-47: one iteration of the generation loop.
spanDays models (END_DATE - START_DATE).days and the transaction date is the
day offset from START_DATE.  The price is looked up as the first product row
whose Product_ID equals the chosen identifier (.loc followed by .iloc[0]);
none models the places where the Python iteration would raise. -/
def genTransaction (products_df : List Product) (spanDays i : Nat) (d : Draw) :
    Option Transaction := do
  let customer_id ← randomChoice customer_ids d.custPick
  let product_id ← randomChoice (product_ids products_df) d.prodPick
  let price ← ((products_df.filter (fun p => p.Product_ID == product_id)).head?).map
    (fun p => p.Price)
  let random_days := randint 0 spanDays d.dayPick
  let quantity := randint 1 4 d.qtyPick
  some
    { TransactionID := "T-" ++ toString (1001 + i)
      CustomerID := customer_id
      ProductID := product_id
      TransactionDate := random_days
      Quantity := quantity
      PricePerItem := price
      TotalPrice := price * (quantity : Rat) }

/-- src/generate_data.py lines 25-47: the generation loop over n iterations,
aborting at the first iteration that raises. -/
def generateTransactions (products_df : List Product) (spanDays n : Nat)
    (draws : Nat → Draw) : Option (List Transaction) :=
  (List.range n).mapM (fun i => genTransaction products_df spanDays i (draws i))

/-- The script run with the source configuration NUM_TRANSACTIONS = 1000:
some file contents when the loop completes and line 51 writes them, none
when the loop aborts before the write. -/
def scriptRun (products_df : List Product) (spanDays : Nat) (draws : Nat → Draw) :
    Option (List Transaction) :=
  generateTransactions products_df spanDays NUM_TRANSACTIONS draws

def prods1 : List Product := [{ Product_ID := "P-1", Price := 10 }]

def draws0 : Nat → Draw := fun _ => { custPick := 0, prodPick := 0, dayPick := 0, qtyPick := 0 }

def tx1001 : Transaction :=
  { TransactionID := "T-1001", CustomerID := "C-1", ProductID := "P-1",
    TransactionDate := 0, Quantity := 1, PricePerItem := 10, TotalPrice := 10 }

/-! ## Table loader (src/app.py lines 33-43)

load_data wraps pd.read_csv and a loop converting the designated date
columns with pd.to_datetime inside a try block that catches only
FileNotFoundError.  A file is modelled as an optional list of named raw
columns (none for a missing file).  A raw cell records the verdict of the
external pd.to_datetime parser on its value: constructor date d for a value
that parses to calendar day d, constructor other for a value the parser
rejects.  A date-parse failure escapes the try block, modelled as the error
outcome of the load. -/
inductive RawCell where
  | date (d : Int)
  | other (s : String)
deriving DecidableEq

/-- pd.to_datetime applied to a single value: the verdict recorded in the
cell. -/
def to_datetime : RawCell → Option Int
  | RawCell.date d => some d
  | RawCell.other _ => none

structure RawCol where
  name : String
  cells : List RawCell
deriving DecidableEq

/-- A loaded cell: either a parsed calendar date or the raw value passed
through untouched. -/
inductive LoadedCell where
  | date (d : Int)
  | raw (c : RawCell)
deriving DecidableEq

structure LoadedCol where
  name : String
  cells : List LoadedCell
deriving DecidableEq

/-- src/app.py line 38: the designated date-bearing column names. -/
def date_columns : List String := ["Launch_Date", "TransactionDate"]

/-- Loading a single column: a designated date column is converted wholesale
with pd.to_datetime, erroring when any value is unparseable; all other
columns pass through unchanged. -/
def loadCol (c : RawCol) : Except String LoadedCol :=
  if c.name ∈ date_columns then
    match c.cells.mapM to_datetime with
    | some ds => Except.ok { name := c.name, cells := ds.map LoadedCell.date }
    | none => Except.error "date parse error"
  else
    Except.ok { name := c.name, cells := c.cells.map LoadedCell.raw }

/-- src/app.py lines 33-43, load_data: a missing file raises
FileNotFoundError, which is caught and returned as the absent sentinel None;
for a present file every designated date column present in the table is
parsed, and a parse failure escapes uncaught. -/
def load_data (file : Option (List RawCol)) : Except String (Option (List LoadedCol)) :=
  match file with
  | none => Except.ok none
  | some cols => (cols.mapM loadCol).map some

def rawGood : List RawCol :=
  [{ name := "Launch_Date", cells := [RawCell.date 100, RawCell.date 200] },
   { name := "Price", cells := [RawCell.other "10", RawCell.other "20"] }]

def rawBad : List RawCol :=
  [{ name := "Launch_Date", cells := [RawCell.date 100, RawCell.other "not a date"] }]

def gapRow1 : String → Rat := fun c => if c = "Launch_Date" then 0 else 10

def gapRow2 : String → Rat := fun c => if c = "Launch_Date" then 2 else 20

/-- A two-row table observed on days 0 and 2: date range day 0 to day 2 with
a gap at day 1. -/
def gapDF : DF := { columns := ["Launch_Date", "Price"], rows := [gapRow1, gapRow2] }

/-- C4: for every table that is empty, or has 0 or 1 rows, or is missing the
designated date column or the designated value column, the forecast adapter
returns the insufficient-data sentinel (an absent value for both the model
and the prediction table) and does not raise. -/
theorem C4_insufficient_data_sentinel (df : DF) (date_col value_col : String) (periods : Nat)
    (h : df.rows.length < 2 ∨ date_col ∉ df.columns ∨ value_col ∉ df.columns) :
    run_prophet_forecast df date_col value_col periods = (none, none) := by
  unfold run_prophet_forecast
  rw [if_pos]
  rcases h with h | h | h
  · exact Or.inr (Or.inr (Or.inr h))
  · exact Or.inr (Or.inl h)
  · exact Or.inr (Or.inr (Or.inl h))

/-- C4 witness: a one-row table with both columns present hits the sentinel. -/
theorem C4_witness :
    run_prophet_forecast
      { columns := ["Launch_Date", "Price"], rows := [fun _ => 0] }
      "Launch_Date" "Price" 365 = (none, none) :=
  C4_insufficient_data_sentinel _ _ _ _ (Or.inl (by decide))

/-- C10: the two components of the run_prophet_forecast result are absent
together or present together: the model handle is the absent sentinel if and
only if the prediction table is. -/
theorem C10_model_and_forecast_absent_together (df : DF) (date_col value_col : String)
    (periods : Nat) :
    (run_prophet_forecast df date_col value_col periods).1 = none ↔
      (run_prophet_forecast df date_col value_col periods).2 = none := by
  unfold run_prophet_forecast
  split
  · simp
  · simp

/-- C3 counterexample: a table with two identical rows has only one distinct,
non-missing (timestamp, value) row, yet the adapter does not return the
sentinel: the guard counts raw rows (len(df) lt 2), so it proceeds to fit. -/
theorem C3_counterexample :
    (dupDF.rows.map (fun r => (r "Launch_Date", r "Price"))).dedup.length < 2 ∧
    (run_prophet_forecast dupDF "Launch_Date" "Price" 1).1 ≠ none ∧
    (run_prophet_forecast dupDF "Launch_Date" "Price" 1).2 ≠ none := by
  refine ⟨by decide, by decide, by decide⟩

/-- C3 amended: for every input table with fewer than 2 rows by raw row
count, the forecast adapter returns the explicit absent sentinel; the guard
examines only the raw row count, not distinctness or missingness. -/
theorem C3_amended_raw_rowcount_sentinel (df : DF) (date_col value_col : String) (periods : Nat)
    (h : df.rows.length < 2) :
    run_prophet_forecast df date_col value_col periods = (none, none) := by
  unfold run_prophet_forecast
  rw [if_pos]
  exact Or.inr (Or.inr (Or.inr h))

/-- C3 witness: the empty table hits the raw-row-count sentinel. -/
theorem C3_witness :
    run_prophet_forecast { columns := ["Launch_Date", "Price"], rows := [] }
      "Launch_Date" "Price" 90 = (none, none) :=
  C3_amended_raw_rowcount_sentinel _ _ _ _ (by decide)

theorem mem_intRange {lo hi y : Int} : y ∈ intRange lo hi ↔ lo ≤ y ∧ y ≤ hi := by
  unfold intRange
  simp only [List.mem_map, List.mem_range]
  constructor
  · rintro ⟨i, hi', rfl⟩
    constructor
    · omega
    · omega
  · rintro ⟨h1, h2⟩
    refine ⟨(y - lo).toNat, by omega, by omega⟩

/-- C2 counterexample: a table with observations in 2020 and 2022 only.  The
calendar year 2021 lies in the date range and has zero observations, yet the
count rollup emits the row (2021, 0) and the mean rollup emits (2021, none):
in-range years with zero observations are zero-filled, not omitted. -/
theorem C2_counterexample :
    launches_by_year gapYearsTable = [(2020, 1), (2021, 0), (2022, 1)] ∧
    gapYearsTable.countP (fun r => r.1.year == 2021) = 0 ∧
    (2021, 0) ∈ launches_by_year gapYearsTable ∧
    (price_by_year gapYearsTable).map Prod.fst = [2020, 2021, 2022] ∧
    (2021, (none : Option Rat)) ∈ price_by_year gapYearsTable := by
  refine ⟨by decide, by decide, by decide, by decide, by decide⟩

/-- C2 amended: for every nonempty table, the yearly rollup emits one row for
every calendar year from the earliest to the latest observed year inclusive;
a year in range with zero observations is emitted as a zero-count row by the
count rollup and as a missing-value row by the mean rollup, not omitted. -/
theorem C2_amended_zero_years_emitted :
    (∀ {α : Type} (rows : List (Date × α)), rows ≠ [] →
      ∀ y : Int, minYear rows ≤ y → y ≤ maxYear rows →
        (y, rows.countP (fun r => r.1.year == y)) ∈ launches_by_year rows) ∧
    (∀ (rows : List (Date × Rat)), rows ≠ [] →
      ∀ y : Int, minYear rows ≤ y → y ≤ maxYear rows →
        rows.countP (fun r => r.1.year == y) = 0 →
          (y, none) ∈ price_by_year rows) := by
  constructor
  · intro α rows hne y hlo hhi
    unfold launches_by_year
    refine List.mem_map.mpr ⟨y, ?_, rfl⟩
    unfold yearBins
    rw [if_neg (by simpa [List.isEmpty_iff] using hne)]
    exact mem_intRange.mpr ⟨hlo, hhi⟩
  · intro rows hne y hlo hhi hzero
    unfold price_by_year
    have hbin : y ∈ yearBins rows := by
      unfold yearBins
      rw [if_neg (by simpa [List.isEmpty_iff] using hne)]
      exact mem_intRange.mpr ⟨hlo, hhi⟩
    refine List.mem_map.mpr ⟨y, hbin, ?_⟩
    have hall := List.countP_eq_zero.mp hzero
    have hfm : rows.filterMap (fun r => if r.1.year == y then some r.2 else none) = [] := by
      rw [List.filterMap_eq_nil_iff]
      intro r hr
      exact if_neg (hall r hr)
    simp only [hfm]
    rfl

/-- C2 witness: both rollup parts instantiated on the 2020 and 2022 table at
the zero-observation year 2021. -/
theorem C2_witness :
    (2021, gapYearsTable.countP (fun r => r.1.year == 2021)) ∈ launches_by_year gapYearsTable ∧
    (2021, (none : Option Rat)) ∈ price_by_year gapYearsTable := by
  constructor
  · exact C2_amended_zero_years_emitted.1 gapYearsTable (by decide) 2021 (by decide) (by decide)
  · exact C2_amended_zero_years_emitted.2 gapYearsTable (by decide) 2021 (by decide) (by decide)
      (by decide)

/-- C8: for every nonempty table, the yearly count rollup has strictly
increasing year keys with no duplicate years, and each emitted year carries
the number of source rows whose date falls in that calendar year. -/
theorem C8_rollup_sorted_and_counts {α : Type} (rows : List (Date × α)) (hne : rows ≠ []) :
    ((launches_by_year rows).map Prod.fst).Sorted (fun a b => a < b) ∧
    ((launches_by_year rows).map Prod.fst).Nodup ∧
    ∀ p ∈ launches_by_year rows, p.2 = rows.countP (fun r => r.1.year == p.1) := by
  have hkeys : (launches_by_year rows).map Prod.fst = yearBins rows := by
    unfold launches_by_year
    rw [List.map_map]
    exact List.map_id'' (fun _ => rfl) _
  have hsorted : (yearBins rows).Sorted (fun a b => a < b) := by
    unfold yearBins
    split
    · exact List.sorted_nil
    · unfold intRange
      refine List.Pairwise.map (fun i : Nat => minYear rows + (i : Int)) ?_
        (List.pairwise_lt_range _)
      intro a b hab
      show minYear rows + (a : Int) < minYear rows + (b : Int)
      omega
  refine ⟨hkeys ▸ hsorted, hkeys ▸ hsorted.nodup, ?_⟩
  intro p hp
  rcases List.mem_map.mp hp with ⟨z, _, rfl⟩
  rfl

/-- C8 witness: the rollup of the 2020 and 2022 table has strictly
increasing, duplicate-free years with the right counts. -/
theorem C8_witness :
    ((launches_by_year gapYearsTable).map Prod.fst).Sorted (fun a b => a < b) ∧
    ((launches_by_year gapYearsTable).map Prod.fst).Nodup ∧
    ∀ p ∈ launches_by_year gapYearsTable,
      p.2 = gapYearsTable.countP (fun r => r.1.year == p.1) :=
  C8_rollup_sorted_and_counts gapYearsTable (by decide)

/-- C9: for every nonempty column of identifiers, nunique equals the
cardinality of the set of identifier values in that column. -/
theorem C9_nunique_eq_card (l : List String) (hne : l ≠ []) :
    nunique l = l.toFinset.card := by
  rw [nunique, List.card_toFinset]

/-- C9 witness: a concrete three-row identifier column with two distinct
values. -/
theorem C9_witness :
    (["P-1", "P-2", "P-1"] : List String) ≠ [] ∧
    nunique ["P-1", "P-2", "P-1"] = (["P-1", "P-2", "P-1"] : List String).toFinset.card :=
  ⟨by decide, C9_nunique_eq_card _ (by decide)⟩

theorem genTransaction_nil (spanDays i : Nat) (d : Draw) :
    genTransaction [] spanDays i d = none := by
  unfold genTransaction
  cases h : randomChoice customer_ids d.custPick with
  | none => simp [h]
  | some c => simp [h, randomChoice, product_ids]

/-- Successful elements of an Option-valued mapM all come from successful
applications of the function to list elements. -/
theorem mapM_option_mem {α β : Type} (f : α → Option β) :
    ∀ (l : List α) (ts : List β), l.mapM f = some ts → ∀ t ∈ ts, ∃ a ∈ l, f a = some t := by
  intro l
  induction l with
  | nil =>
    intro ts h t ht
    simp only [List.mapM_nil, Option.pure_def, Option.some.injEq] at h
    subst h
    cases ht
  | cons a l ih =>
    intro ts h t ht
    rw [List.mapM_cons] at h
    cases hfa : f a with
    | none => rw [hfa] at h; simp at h
    | some x =>
      rw [hfa] at h
      cases hml : l.mapM f with
      | none => rw [hml] at h; simp at h
      | some xs =>
        rw [hml] at h
        simp at h
        subst h
        rcases List.mem_cons.mp ht with rfl | hxs
        · exact ⟨a, List.mem_cons_self a l, hfa⟩
        · rcases ih xs hml t hxs with ⟨b, hb, hfb⟩
          exact ⟨b, List.mem_cons_of_mem a hb, hfb⟩

/-- Invariants of a single successfully generated transaction. -/
theorem genTransaction_invariants (products_df : List Product) (spanDays i : Nat) (d : Draw)
    (t : Transaction) (h : genTransaction products_df spanDays i d = some t) :
    t.TotalPrice = (t.Quantity : Rat) * t.PricePerItem ∧
    t.ProductID ∈ product_ids products_df ∧
    ∃ p ∈ products_df, p.Product_ID = t.ProductID ∧ p.Price = t.PricePerItem := by
  unfold genTransaction at h
  cases hc : randomChoice customer_ids d.custPick with
  | none => rw [hc] at h; simp at h
  | some customer_id =>
    rw [hc] at h
    simp only [Option.bind_eq_bind, Option.some_bind] at h
    cases hp : randomChoice (product_ids products_df) d.prodPick with
    | none => rw [hp] at h; simp at h
    | some product_id =>
      rw [hp] at h
      simp only [Option.bind_eq_bind, Option.some_bind] at h
      cases hh : (products_df.filter (fun p => p.Product_ID == product_id)).head? with
      | none => rw [hh] at h; simp at h
      | some prow =>
        rw [hh] at h
        simp at h
        have hpid : product_id ∈ product_ids products_df := List.get?_mem hp
        have hprow : prow ∈ products_df.filter (fun p => p.Product_ID == product_id) :=
          List.mem_of_mem_head? hh
        have hprow2 := List.mem_filter.mp hprow
        subst h
        refine ⟨mul_comm _ _, hpid, prow, hprow2.1, by simpa using hprow2.2, rfl⟩

/-- C5: every transaction produced by a completed generation run satisfies
TotalPrice = Quantity * PricePerItem exactly, has a ProductID belonging to
the identifier set of the input product table, and carries as PricePerItem
the price of the referenced product row at generation time. -/
theorem C5_generated_transaction_invariants (products_df : List Product) (spanDays n : Nat)
    (draws : Nat → Draw) (ts : List Transaction)
    (hrun : generateTransactions products_df spanDays n draws = some ts)
    (t : Transaction) (ht : t ∈ ts) :
    t.TotalPrice = (t.Quantity : Rat) * t.PricePerItem ∧
    t.ProductID ∈ product_ids products_df ∧
    ∃ p ∈ products_df, p.Product_ID = t.ProductID ∧ p.Price = t.PricePerItem := by
  rcases mapM_option_mem _ _ _ hrun t ht with ⟨i, _, hgen⟩
  exact genTransaction_invariants products_df spanDays i (draws i) t hgen

set_option maxRecDepth 8000 in
theorem genTransaction_prods1_eval : genTransaction prods1 30 0 (draws0 0) = some tx1001 := by
  have hcust : randomChoice customer_ids (draws0 0).custPick = some "C-1" := by decide
  have hprod : randomChoice (product_ids prods1) (draws0 0).prodPick = some "P-1" := by decide
  have hprice :
      ((prods1.filter (fun p => p.Product_ID == "P-1")).head?).map (fun p => p.Price) =
        some 10 := by decide
  unfold genTransaction
  rw [hcust]
  simp only [Option.bind_eq_bind, Option.some_bind]
  rw [hprod]
  simp only [Option.bind_eq_bind, Option.some_bind]
  rw [hprice]
  simp only [Option.bind_eq_bind, Option.some_bind, Option.some.injEq, tx1001,
    Transaction.mk.injEq, randint, draws0]
  norm_num
  decide

/-- C5 witness: a one-iteration run over a one-product table, with the
generated transaction checked against the invariants. -/
theorem C5_witness :
    generateTransactions prods1 30 1 draws0 = some [tx1001] ∧
    (tx1001.TotalPrice = (tx1001.Quantity : Rat) * tx1001.PricePerItem ∧
     tx1001.ProductID ∈ product_ids prods1 ∧
     ∃ p ∈ prods1, p.Product_ID = tx1001.ProductID ∧ p.Price = tx1001.PricePerItem) := by
  have hrun : generateTransactions prods1 30 1 draws0 = some [tx1001] := by
    show (List.range 1).mapM (fun i => genTransaction prods1 30 i (draws0 i)) = some [tx1001]
    rw [show List.range 1 = [0] from rfl, List.mapM_cons, genTransaction_prods1_eval,
      List.mapM_nil]
    rfl
  exact ⟨hrun,
    C5_generated_transaction_invariants prods1 30 1 draws0 [tx1001] hrun tx1001
      (List.mem_singleton.mpr rfl)⟩

/-- C6: invoked on an empty product table, the generation run aborts (the
first iteration raises IndexError inside random.choice) and the output file
is never written: the script result is the no-file outcome none. -/
theorem C6_empty_products_aborts (spanDays : Nat) (draws : Nat → Draw) :
    scriptRun [] spanDays draws = none := by
  unfold scriptRun generateTransactions
  show (List.range (999 + 1)).mapM (fun i => genTransaction [] spanDays i (draws i)) = none
  rw [List.range_succ_eq_map, List.mapM_cons, genTransaction_nil]
  rfl

theorem mapM_option_all_some {α β : Type} (f : α → Option β) :
    ∀ l : List α, (∀ a ∈ l, (f a).isSome) → ∃ out : List β, l.mapM f = some out := by
  intro l
  induction l with
  | nil => intro _; exact ⟨[], rfl⟩
  | cons a l ih =>
    intro hall
    rcases Option.isSome_iff_exists.mp (hall a (List.mem_cons_self a l)) with ⟨b, hb⟩
    rcases ih (fun x hx => hall x (List.mem_cons_of_mem a hx)) with ⟨out, hout⟩
    refine ⟨b :: out, ?_⟩
    rw [List.mapM_cons, hb, hout]
    rfl

theorem mapM_option_none_of_mem {α β : Type} (f : α → Option β) :
    ∀ (l : List α) (a : α), a ∈ l → f a = none → l.mapM f = none := by
  intro l
  induction l with
  | nil => intro a ha; cases ha
  | cons x l ih =>
    intro a ha hfa
    rw [List.mapM_cons]
    rcases List.mem_cons.mp ha with rfl | ha'
    · rw [hfa]; rfl
    · cases hfx : f x with
      | none => rfl
      | some b =>
        rw [ih a ha' hfa]
        rfl

theorem mapM_except_ok_of_all {α β : Type} (f : α → Except String β) :
    ∀ l : List α, (∀ a ∈ l, ∃ b, f a = Except.ok b) →
      ∃ out : List β, l.mapM f = Except.ok out ∧ ∀ b ∈ out, ∃ a ∈ l, f a = Except.ok b := by
  intro l
  induction l with
  | nil => intro _; exact ⟨[], rfl, by intro b hb; cases hb⟩
  | cons a l ih =>
    intro hall
    rcases hall a (List.mem_cons_self a l) with ⟨b, hb⟩
    rcases ih (fun x hx => hall x (List.mem_cons_of_mem a hx)) with ⟨out, hout, hmem⟩
    refine ⟨b :: out, ?_, ?_⟩
    · rw [List.mapM_cons, hb, hout]; rfl
    · intro c hc
      rcases List.mem_cons.mp hc with rfl | hc'
      · exact ⟨a, List.mem_cons_self a l, hb⟩
      · rcases hmem c hc' with ⟨x, hx, hfx⟩
        exact ⟨x, List.mem_cons_of_mem a hx, hfx⟩

theorem mapM_except_error_of_mem {α β : Type} (f : α → Except String β) :
    ∀ (l : List α) (a : α), a ∈ l → (∃ e, f a = Except.error e) →
      ∃ e, l.mapM f = Except.error e := by
  intro l
  induction l with
  | nil => intro a ha; cases ha
  | cons x l ih =>
    intro a ha hfa
    rw [List.mapM_cons]
    cases hfx : f x with
    | error e => exact ⟨e, rfl⟩
    | ok b =>
      rcases List.mem_cons.mp ha with rfl | ha'
      · rcases hfa with ⟨e, he⟩
        rw [hfx] at he
        cases he
      · rcases ih a ha' hfa with ⟨e, he⟩
        refine ⟨e, ?_⟩
        rw [he]
        rfl

/-- C7: the table loader returns the absent sentinel for a missing file
instead of raising; for a present file, every designated date column whose
values all parse is converted to calendar dates and the load succeeds, while
a single unparseable value in a present designated date column fails the
whole load with a parse error. -/
theorem C7_loader_contract :
    load_data none = Except.ok none ∧
    (∀ cols : List RawCol,
      (∀ c ∈ cols, c.name ∈ date_columns → ∀ x ∈ c.cells, (to_datetime x).isSome) →
      ∃ out, load_data (some cols) = Except.ok (some out) ∧
        ∀ co ∈ out, co.name ∈ date_columns →
          ∀ cell ∈ co.cells, ∃ d, cell = LoadedCell.date d) ∧
    (∀ (cols : List RawCol) (c : RawCol), c ∈ cols → c.name ∈ date_columns →
      (∃ x ∈ c.cells, to_datetime x = none) →
      ∃ e, load_data (some cols) = Except.error e) := by
  refine ⟨rfl, ?_, ?_⟩
  · intro cols hall
    have hok : ∀ c ∈ cols, ∃ b, loadCol c = Except.ok b := by
      intro c hc
      unfold loadCol
      by_cases hname : c.name ∈ date_columns
      · rw [if_pos hname]
        rcases mapM_option_all_some to_datetime c.cells (hall c hc hname) with ⟨ds, hds⟩
        rw [hds]
        exact ⟨_, rfl⟩
      · rw [if_neg hname]
        exact ⟨_, rfl⟩
    rcases mapM_except_ok_of_all loadCol cols hok with ⟨out, hout, hmem⟩
    refine ⟨out, ?_, ?_⟩
    · show (cols.mapM loadCol).map some = Except.ok (some out)
      rw [hout]
      rfl
    · intro co hco hconame cell hcell
      rcases hmem co hco with ⟨c, hc, hfc⟩
      unfold loadCol at hfc
      by_cases hname : c.name ∈ date_columns
      · rw [if_pos hname] at hfc
        rcases mapM_option_all_some to_datetime c.cells (hall c hc hname) with ⟨ds, hds⟩
        rw [hds] at hfc
        simp only [Except.ok.injEq] at hfc
        subst hfc
        rcases List.mem_map.mp hcell with ⟨d, _, rfl⟩
        exact ⟨d, rfl⟩
      · rw [if_neg hname] at hfc
        simp only [Except.ok.injEq] at hfc
        subst hfc
        exact absurd hconame hname
  · intro cols c hc hname hbad
    have herr : ∃ e, loadCol c = Except.error e := by
      unfold loadCol
      rw [if_pos hname]
      rcases hbad with ⟨x, hx, hxnone⟩
      rw [mapM_option_none_of_mem to_datetime c.cells x hx hxnone]
      exact ⟨_, rfl⟩
    rcases mapM_except_error_of_mem loadCol cols c hc herr with ⟨e, he⟩
    refine ⟨e, ?_⟩
    show (cols.mapM loadCol).map some = Except.error e
    rw [he]
    rfl

/-- C7 witness: the absent file yields the absent sentinel; a well-formed
file loads with its date column parsed; a file with one unparseable date
value fails the whole load. -/
theorem C7_witness :
    load_data none = Except.ok none ∧
    (∃ out, load_data (some rawGood) = Except.ok (some out) ∧
      ∀ co ∈ out, co.name ∈ date_columns →
        ∀ cell ∈ co.cells, ∃ d, cell = LoadedCell.date d) ∧
    (∃ e, load_data (some rawBad) = Except.error e) :=
  ⟨C7_loader_contract.1,
   C7_loader_contract.2.1 rawGood (by decide),
   C7_loader_contract.2.2 rawBad
     { name := "Launch_Date", cells := [RawCell.date 100, RawCell.other "not a date"] }
     (by decide) (by decide) ⟨RawCell.other "not a date", by decide, rfl⟩⟩

/-! ## The forecast coverage property (C1) -/
theorem mem_sortedDates {l : List Rat} {x : Rat} : x ∈ sortedDates l ↔ x ∈ l := by
  unfold sortedDates
  rw [(List.perm_insertionSort _ _).mem_iff, List.mem_dedup]

theorem sortedDates_sorted (l : List Rat) : (sortedDates l).Sorted (fun a b => a ≤ b) :=
  List.sorted_insertionSort _ _

theorem sortedDates_nodup (l : List Rat) : (sortedDates l).Nodup :=
  (List.perm_insertionSort _ _).nodup_iff.mpr l.nodup_dedup

theorem sorted_le_last :
    ∀ l : List Rat, l.Sorted (fun a b => a ≤ b) → ∀ x ∈ l, x ≤ l.getLast?.getD 0 := by
  intro l
  induction l with
  | nil => intro _ x hx; cases hx
  | cons a t ih =>
    intro hs x hx
    have hs1 := (List.sorted_cons.mp hs).1
    have hs2 := (List.sorted_cons.mp hs).2
    cases t with
    | nil =>
      rcases List.mem_cons.mp hx with rfl | h
      · simp
      · cases h
    | cons b u =>
      rw [List.getLast?_cons_cons]
      rcases List.mem_cons.mp hx with rfl | hxt
      · exact le_trans (hs1 b (List.mem_cons_self b u)) (ih hs2 b (List.mem_cons_self b u))
      · exact ih hs2 x hxt

/-- C1 counterexample: for the table observed on days 0 and 2 (d0 = 0,
d1 = 2) and horizon 1, the claim requires exactly one row per calendar day
0, 1, 2, 3; the adapter returns rows for days 0, 2, 3 only, because the
external model builds the future frame from the distinct observed dates, not
from every day of the range: day 1 is missing. -/
theorem C1_counterexample :
    ((run_prophet_forecast gapDF "Launch_Date" "Price" 1).2).map
      (fun fc => fc.map ForecastRow.ds) = some [0, 2, 3] ∧
    dailySpan 0 4 = [0, 1, 2, 3] ∧
    ¬ ([(0 : Rat), 2, 3].Perm [0, 1, 2, 3]) := by
  refine ⟨?_, ?_, by decide⟩
  · norm_num [run_prophet_forecast, gapDF, gapRow1, gapRow2, prophetFit, prophetPredict,
      make_future_dataframe, sortedDates, List.insertionSort, List.orderedInsert,
      List.dedup_cons_of_not_mem, List.range_succ, Function.comp]
  · norm_num [dailySpan, List.range_succ]

/-- C1 amended: for every table with at least 2 rows and both designated
columns present, and every positive horizon, the prediction table contains
exactly one row per distinct historical date plus exactly one row per each
of the h extension days starting the day after the last historical date L
(the maximum of the date column); it covers every calendar day of the range
only when the historical dates themselves do. -/
theorem C1_amended_forecast_rows (df : DF) (date_col value_col : String) (periods : Nat)
    (hlen : 2 ≤ df.rows.length) (hdc : date_col ∈ df.columns) (hvc : value_col ∈ df.columns)
    (hpos : 0 < periods) :
    ∃ (fc : List ForecastRow) (L : Rat),
      (run_prophet_forecast df date_col value_col periods).2 = some fc ∧
      L ∈ df.rows.map (fun r => r date_col) ∧
      (∀ x ∈ df.rows.map (fun r => r date_col), x ≤ L) ∧
      (fc.map ForecastRow.ds).Nodup ∧
      (∀ d : Rat, d ∈ fc.map ForecastRow.ds ↔
        (d ∈ df.rows.map (fun r => r date_col) ∨
          ∃ i : Nat, i < periods ∧ d = L + 1 + (i : Rat))) := by
  have hne : df.rows ≠ [] := by
    intro h
    rw [h] at hlen
    simp at hlen
  have hguard : ¬(df.rows.isEmpty = true ∨ date_col ∉ df.columns ∨ value_col ∉ df.columns ∨
      df.rows.length < 2) := by
    rintro (h | h | h | h)
    · exact hne (List.isEmpty_iff.mp h)
    · exact h hdc
    · exact h hvc
    · omega
  have hproj : (df.rows.map (fun r => (r date_col, r value_col))).map Prod.fst =
      df.rows.map (fun r => r date_col) := by
    rw [List.map_map]
    rfl
  have hhist : (prophetFit (df.rows.map (fun r => (r date_col, r value_col)))).historyDates =
      sortedDates (df.rows.map (fun r => r date_col)) := by
    show sortedDates ((df.rows.map (fun r => (r date_col, r value_col))).map Prod.fst) =
      sortedDates (df.rows.map (fun r => r date_col))
    rw [hproj]
  have hDne : df.rows.map (fun r => r date_col) ≠ [] := by
    intro h
    exact hne (List.map_eq_nil_iff.mp h)
  have histne : sortedDates (df.rows.map (fun r => r date_col)) ≠ [] := by
    rcases List.exists_mem_of_ne_nil _ hDne with ⟨x, hx⟩
    intro h
    have := mem_sortedDates.mpr hx
    rw [h] at this
    cases this
  have hlast : (sortedDates (df.rows.map (fun r => r date_col))).getLast?.getD 0 ∈
      df.rows.map (fun r => r date_col) := by
    apply mem_sortedDates.mp
    rw [List.getLast?_eq_getLast _ histne]
    exact List.getLast_mem histne
  refine ⟨prophetPredict (prophetFit (df.rows.map (fun r => (r date_col, r value_col))))
      (make_future_dataframe (prophetFit (df.rows.map (fun r => (r date_col, r value_col))))
        periods),
    (sortedDates (df.rows.map (fun r => r date_col))).getLast?.getD 0, ?_, hlast, ?_, ?_, ?_⟩
  · unfold run_prophet_forecast
    rw [if_neg hguard]
  · intro x hx
    exact sorted_le_last _ (sortedDates_sorted _) x (mem_sortedDates.mpr hx)
  · unfold prophetPredict
    rw [List.map_map]
    have hid : (make_future_dataframe
        (prophetFit (df.rows.map (fun r => (r date_col, r value_col)))) periods).map
        (ForecastRow.ds ∘ fun d => { ds := d, yhat := 0, yhat_lower := 0, yhat_upper := 0 }) =
        make_future_dataframe
          (prophetFit (df.rows.map (fun r => (r date_col, r value_col)))) periods :=
      List.map_id' _
    rw [hid]
    unfold make_future_dataframe
    rw [hhist]
    apply List.Nodup.append (sortedDates_nodup _)
    · apply List.Nodup.map ?_ (List.nodup_range periods)
      intro a b hab
      have h1 : ((a : Rat)) = b := add_left_cancel hab
      exact_mod_cast h1
    · intro x hx hx'
      have hxle : x ≤ (sortedDates (df.rows.map (fun r => r date_col))).getLast?.getD 0 :=
        sorted_le_last _ (sortedDates_sorted _) x hx
      rcases List.mem_map.mp hx' with ⟨i, _, rfl⟩
      have : (0 : Rat) ≤ (i : Rat) := Nat.cast_nonneg i
      linarith
  · intro d
    unfold prophetPredict
    rw [List.map_map]
    have hid : (make_future_dataframe
        (prophetFit (df.rows.map (fun r => (r date_col, r value_col)))) periods).map
        (ForecastRow.ds ∘ fun d => { ds := d, yhat := 0, yhat_lower := 0, yhat_upper := 0 }) =
        make_future_dataframe
          (prophetFit (df.rows.map (fun r => (r date_col, r value_col)))) periods :=
      List.map_id' _
    rw [hid]
    unfold make_future_dataframe
    rw [hhist, List.mem_append]
    apply or_congr mem_sortedDates
    constructor
    · rintro h
      rcases List.mem_map.mp h with ⟨i, hi, rfl⟩
      exact ⟨i, List.mem_range.mp hi, rfl⟩
    · rintro ⟨i, hi, rfl⟩
      exact List.mem_map.mpr ⟨i, List.mem_range.mpr hi, rfl⟩

/-- C1 witness: the amended statement instantiated on the two-row table
observed on days 0 and 2, with horizon 1. -/
theorem C1_witness :
    2 ≤ gapDF.rows.length ∧
    ∃ (fc : List ForecastRow) (L : Rat),
      (run_prophet_forecast gapDF "Launch_Date" "Price" 1).2 = some fc ∧
      L ∈ gapDF.rows.map (fun r => r "Launch_Date") ∧
      (∀ x ∈ gapDF.rows.map (fun r => r "Launch_Date"), x ≤ L) ∧
      (fc.map ForecastRow.ds).Nodup ∧
      (∀ d : Rat, d ∈ fc.map ForecastRow.ds ↔
        (d ∈ gapDF.rows.map (fun r => r "Launch_Date") ∨
          ∃ i : Nat, i < 1 ∧ d = L + 1 + (i : Rat))) :=
  ⟨by decide,
   C1_amended_forecast_rows gapDF "Launch_Date" "Price" 1 (by decide) (by decide) (by decide)
     (by decide)⟩

end Market
